import Mathlib

/-!
Verification development for the discv5 test plan (testground harness).

The development shallowly embeds the two source files of the repository:

* `src/main.rs` — instance bookkeeping (`InstanceInfo`, `InstanceInfo::new`),
  the publish-and-collect rendezvous primitive (`publish_and_collect`) and the
  self-excluding wrapper (`collect_instance_info`);
* `src/enr_update/mod.rs` — the `run` scenario driver for the coordinator and
  the participants, embedded as a trace-producing function (namespace
  `EnrUpdate`).

Modelling conventions: machine integers become `Nat`/`Int`; fallible calls
become `Except`; the asynchronous subscription stream of the Coordination
Service becomes a finite list of `Except`-items consumed in order, with the
end of the list standing for a closed feed; a Rust panic (the `unreachable!()`
arm) becomes the dedicated result constructor `panicked`; wall-clock readings
(`Local::now()`) are inputs to the model, given as integer second counts.
-/

set_option autoImplicit false

/-- Identity record (ENR). The source builds records with `EnrBuilder`,
setting at most an IPv4 address and a UDP port; the cryptographic key material
and signing are opaque collaborator functionality, so the record is embedded
by the two address fields the program sets (`none` = field not set). -/
structure Enr where
  ip4 : Option Nat
  udp4 : Option Nat
deriving DecidableEq

/-- InstanceInfo from `src/main.rs` (lines 84-90): sequence number, identity
record, and the bootstrap-role flag. -/
structure InstanceInfo where
  seq : Nat
  enr : Enr
  is_bootstrap_node : Bool
deriving DecidableEq

/-- InstanceInfo.new from `src/main.rs` (lines 92-108). The sequence number
is allocated by the Coordination Service (`get_instance_seq`); the model takes
the allocated value as an input. The role flag is computed as `seq == 1`. -/
def InstanceInfo.new (seq : Nat) (enr : Enr) : InstanceInfo :=
  { seq := seq, enr := enr, is_bootstrap_node := seq == 1 }

/-- Rust `Iterator::position` on a list: index of the first element satisfying
the predicate, if any. Used by `collect_instance_info` (line 129). -/
def position {α : Type} (p : α → Bool) : List α → Option Nat
  | [] => none
  | a :: rest => if p a then some 0 else (position p rest).map (· + 1)

/-- Rust `Vec::remove(pos)`: drop the element at index `pos`, shifting the
tail left. Out-of-range indices leave the list unchanged (the source only
calls it with an in-range index returned by `position`). -/
def remove_at {α : Type} : List α → Nat → List α
  | [], _ => []
  | _ :: rest, 0 => rest
  | a :: rest, n + 1 => a :: remove_at rest n

/-- Lines 129-131 of `src/main.rs` (`collect_instance_info`): remove the
first collected record whose `seq` equals the own `seq`, if any. -/
def remove_own (instance_info : InstanceInfo) (info : List InstanceInfo) :
    List InstanceInfo :=
  match position (fun i => i.seq == instance_info.seq) info with
  | some pos => remove_at info pos
  | none => info

/-- Action trace of the rendezvous primitive: the calls it makes to the
Coordination Service, in program order. -/
inductive PCAct where
  | publish (topic : String) (payload : String)
  | subscribe (topic : String)
deriving DecidableEq

/-- Result of `publish_and_collect`: a collected list (`Ok(vec)`), a
propagated error (`Err(e)` from publish, the stream, or decoding), or a panic
(`unreachable!()` reached because the stream closed early). -/
inductive PCResult (E T : Type) where
  | ok (records : List T)
  | err (e : E)
  | panicked
deriving DecidableEq

/-- One loop iteration outcome: an `Ok` stream item that decodes to `some t`;
anything else (stream error, or a payload the decoder rejects) is `none`. -/
def decoded_ok {E T : Type} (decode : String → Except E T) :
    Except E String → Option T
  | .ok s =>
    match decode s with
    | .ok t => some t
    | .error _ => none
  | .error _ => none

/-- Decode a whole stream segment: `some ts` when every item is an `Ok`
payload accepted by the decoder, in order. -/
def decode_all {E T : Type} (decode : String → Except E T) :
    List (Except E String) → Option (List T)
  | [] => some []
  | item :: rest =>
    match decoded_ok decode item with
    | some t => (decode_all decode rest).map (t :: ·)
    | none => none

/-- The collection loop of `publish_and_collect` (`src/main.rs` lines
147-158): consume exactly `count` items from the subscription stream,
appending each decoded record to the vector. A stream error or a decode error
is returned as `Err`; a closed stream hits the `unreachable!()` arm, embedded
as `panicked`. -/
def collect_loop {E T : Type} (decode : String → Except E T) :
    Nat → List (Except E String) → List T → PCResult E T
  | 0, _, acc => .ok acc
  | _ + 1, [], _ => .panicked
  | n + 1, .ok s :: rest, acc =>
    match decode s with
    | .ok t => collect_loop decode n rest (acc ++ [t])
    | .error e => .err e
  | _ + 1, .error e :: _, _ => .err e

/-- publish_and_collect from `src/main.rs` (lines 136-161). The model takes
the serialization pair (`encode`, `decode`), the outcome of the publish call,
the instance count, the record to publish, and the subscription stream; it
returns the trace of Coordination-Service actions together with the result.
The topic string is the constant `TOPIC` of the source. -/
def publish_and_collect {E T : Type} (encode : T → String)
    (decode : String → Except E T) (publish_result : Except E Unit)
    (test_instance_count : Nat) (info : T)
    (stream : List (Except E String)) : List PCAct × PCResult E T :=
  match publish_result with
  | .error e => ([PCAct.publish "publish_and_collect" (encode info)], .err e)
  | .ok _ =>
    ([PCAct.publish "publish_and_collect" (encode info),
      PCAct.subscribe "publish_and_collect"],
     collect_loop decode test_instance_count stream [])

/-- collect_instance_info from `src/main.rs` (lines 122-134): run the
rendezvous with the own record, then remove the first record whose `seq`
equals the own `seq`. Errors and panics of the rendezvous propagate. -/
def collect_instance_info {E : Type} (encode : InstanceInfo → String)
    (decode : String → Except E InstanceInfo) (publish_result : Except E Unit)
    (test_instance_count : Nat) (instance_info : InstanceInfo)
    (stream : List (Except E String)) : List PCAct × PCResult E InstanceInfo :=
  match publish_and_collect encode decode publish_result test_instance_count
      instance_info stream with
  | (tr, .ok info) => (tr, .ok (remove_own instance_info info))
  | other => other

namespace EnrUpdate

/-- InstanceInfo from `src/enr_update/mod.rs` (lines 17-22): sequence number
and identity record only. -/
structure InstanceInfo where
  seq : Nat
  enr : Enr
deriving DecidableEq

/-- Lines 29-43 of `src/enr_update/mod.rs`: the local ENR is built with no
address fields when `global_seq == 1` (the coordinator), and with the
data-network IPv4 address and UDP port 9000 otherwise. -/
def construct_local_enr (global_seq : Nat) (data_network_ip : Nat) : Enr :=
  if global_seq == 1 then { ip4 := none, udp4 := none }
  else { ip4 := some data_network_ip, udp4 := some 9000 }

/-- Steps of the `run` function of `src/enr_update/mod.rs`, in program
order. Each constructor corresponds to one externally visible action of the
source: building the ENR, starting the discv5 server (line 59; the wall clock
is read right after, line 60), the publish-and-collect rendezvous (line 71),
spawning the Socket-Update Watcher task over a fresh event stream (lines
74-87), one directed FIND_NODE query per fanned-out peer (lines 102-104) with
an error-level log on failure (line 106), the two named barriers (lines
111-116 and 146-148), the routing-table diagnostic message (lines 118-129),
the headline-metric message (lines 135-138), the error-level log when the
oneshot receiver fails because the event feed closed (line 141), and the
final success report (line 150). -/
inductive Step where
  | constructEnr (enr : Enr)
  | startServer
  | publishAndCollect (info : InstanceInfo)
  | startWatcher
  | findNode (peer : InstanceInfo)
  | logFindNodeError (peer : InstanceInfo)
  | signalAndWait (state : String) (count : Nat)
  | recordPeers
  | recordMetric (seconds : Int)
  | logRecvError
  | recordSuccess
deriving DecidableEq

/-- Barrier name of line 14 of `src/enr_update/mod.rs`. -/
def STATE_COMPLETED_ESTABLISH_CONNECTIONS : String :=
  "state_completed_establish_connections"

/-- Barrier name of line 15 of `src/enr_update/mod.rs`. -/
def STATE_COMPLETED : String := "state_completed"

/-- The coordinator fan-out loop (lines 98-108): one directed query per peer
in order; a failed query (per the `query_ok` oracle) is logged and the loop
continues with the next peer. -/
def fan_out (query_ok : InstanceInfo → Bool) : List InstanceInfo → List Step
  | [] => []
  | p :: rest =>
    Step.findNode p ::
      ((if query_ok p then [] else [Step.logFindNodeError p]) ++
        fan_out query_ok rest)

/-- run from `src/enr_update/mod.rs` (lines 24-152), embedded as the trace of
its steps in program order plus its return value. Model inputs stand for the
collaborators: `data_network_ip` is the address the harness assigns;
`participants` is the list the rendezvous returns (the rendezvous internals
live in `crate::utils`, outside this scenario file); `query_ok` gives each
outcome of each directed query; `socket_update` is `some addr` when the watcher
observes a `SocketUpdated` event and sends `addr`, and `none` when the event
feed closes first so the oneshot receiver fails; `started_up_at` and
`now_at_recv` are the two wall-clock readings (lines 60 and 137) in seconds.
The model covers executions in which the Coordination-Service calls succeed
(their failures would propagate with `?` and are outside the claims), hence
the constant `Except.ok ()` return. -/
def run (global_seq : Nat) (data_network_ip : Nat)
    (participants : List InstanceInfo) (query_ok : InstanceInfo → Bool)
    (socket_update : Option Nat) (started_up_at now_at_recv : Int)
    (test_instance_count : Nat) : List Step × Except String Unit :=
  (Step.constructEnr (construct_local_enr global_seq data_network_ip) ::
    Step.startServer ::
    Step.publishAndCollect
      ⟨global_seq, construct_local_enr global_seq data_network_ip⟩ ::
    ((if global_seq == 1 then [Step.startWatcher] else []) ++
      ((if global_seq == 1 then
          fan_out query_ok
            (participants.filter (fun p => !(p.seq == global_seq)))
        else []) ++
        (Step.signalAndWait STATE_COMPLETED_ESTABLISH_CONNECTIONS
            test_instance_count ::
          Step.recordPeers ::
          ((if global_seq == 1 then
              match socket_update with
              | some _ => [Step.recordMetric (now_at_recv - started_up_at)]
              | none => [Step.logRecvError]
            else []) ++
            [Step.signalAndWait STATE_COMPLETED test_instance_count,
              Step.recordSuccess])))),
    Except.ok ())

/-- Step classifier: the rendezvous publish step. -/
def is_publish_and_collect : Step → Bool
  | .publishAndCollect _ => true
  | _ => false

/-- Step classifier: the watcher-start step. -/
def is_start_watcher : Step → Bool
  | .startWatcher => true
  | _ => false

/-- Step classifier: a directed FIND_NODE query. -/
def is_find_node : Step → Bool
  | .findNode _ => true
  | _ => false

/-- Step classifier: the headline-metric record step. -/
def is_record_metric : Step → Bool
  | .recordMetric _ => true
  | _ => false

/-- Extract the target peer of a directed-query step. -/
def find_node_peer : Step → Option InstanceInfo
  | .findNode p => some p
  | _ => none

/-- One step strictly precedes another in a trace when both occur and the
first occurrence of the former has the smaller index. -/
def precedes_in (tr : List Step) (p q : Step → Bool) : Bool :=
  match position p tr, position q tr with
  | some i, some j => i < j
  | _, _ => false

end EnrUpdate

/-! ### Helper lemmas about the rendezvous collection loop -/

theorem decode_all_length {E T : Type} (decode : String → Except E T) :
    ∀ (l : List (Except E String)) (ts : List T),
      decode_all decode l = some ts → ts.length = l.length := by
  intro l
  induction l with
  | nil =>
    intro ts h
    simp [decode_all] at h
    simp [← h]
  | cons x rest ih =>
    intro ts h
    simp only [decode_all] at h
    cases hx : decoded_ok decode x <;> rw [hx] at h
    · simp at h
    · cases hrest : decode_all decode rest <;> rw [hrest] at h
      · simp at h
      · simp at h
        rw [← h, List.length_cons, List.length_cons, ih _ hrest]

theorem collect_loop_ok {E T : Type} (decode : String → Except E T) :
    ∀ (n : Nat) (stream : List (Except E String)) (acc ts : List T),
      decode_all decode (stream.take n) = some ts → n ≤ stream.length →
      collect_loop decode n stream acc = .ok (acc ++ ts) := by
  intro n
  induction n with
  | zero =>
    intro stream acc ts h _
    simp [decode_all] at h
    simp [collect_loop, ← h]
  | succ n ih =>
    intro stream acc ts h hlen
    match stream with
    | [] => simp at hlen
    | x :: rest =>
      rw [List.take_succ_cons] at h
      simp only [decode_all] at h
      cases hx : decoded_ok decode x <;> rw [hx] at h
      · simp at h
      · cases hrest : decode_all decode (rest.take n) <;> rw [hrest] at h
        · simp at h
        · simp at h
          cases x with
          | error e => simp [decoded_ok] at hx
          | ok s =>
            simp only [decoded_ok] at hx
            cases hd : decode s <;> rw [hd] at hx
            · simp at hx
            · simp at hx
              simp only [collect_loop, hd]
              rw [ih rest (acc ++ [_]) _ hrest
                (Nat.le_of_succ_le_succ (by simpa using hlen))]
              rw [← h, ← hx]
              simp

theorem collect_loop_closed {E T : Type} (decode : String → Except E T) :
    ∀ (stream : List (Except E String)) (n : Nat) (acc ts : List T),
      decode_all decode stream = some ts → stream.length < n →
      collect_loop decode n stream acc = .panicked := by
  intro stream
  induction stream with
  | nil =>
    intro n acc ts _ hlen
    cases n with
    | zero => simp at hlen
    | succ n => simp [collect_loop]
  | cons x rest ih =>
    intro n acc ts h hlen
    cases n with
    | zero => simp at hlen
    | succ n =>
      simp only [decode_all] at h
      cases hx : decoded_ok decode x <;> rw [hx] at h
      · simp at h
      · cases x with
        | error e => simp [decoded_ok] at hx
        | ok s =>
          simp only [decoded_ok] at hx
          cases hd : decode s <;> rw [hd] at hx
          · simp at hx
          · simp only [collect_loop, hd]
            cases hrest : decode_all decode rest <;> rw [hrest] at h
            · simp at h
            · exact ih n _ _ hrest (by simpa using hlen)

/-! ### Helper lemmas about self-removal -/

theorem position_clean_append {α : Type} (p : α → Bool) :
    ∀ (l1 : List α) (x : α) (l2 : List α),
      l1.all (fun a => !(p a)) = true → p x = true →
      position p (l1 ++ x :: l2) = some l1.length := by
  intro l1
  induction l1 with
  | nil =>
    intro x l2 _ hx
    simp [position, hx]
  | cons a rest ih =>
    intro x l2 h hx
    rw [List.all_cons, Bool.and_eq_true, Bool.not_eq_true'] at h
    simp [position, h.1, ih x l2 h.2 hx]

theorem position_clean {α : Type} (p : α → Bool) :
    ∀ l : List α, l.all (fun a => !(p a)) = true → position p l = none := by
  intro l
  induction l with
  | nil => intro _; rfl
  | cons a rest ih =>
    intro h
    rw [List.all_cons, Bool.and_eq_true, Bool.not_eq_true'] at h
    simp [position, h.1, ih h.2]

theorem remove_at_append {α : Type} :
    ∀ (l1 : List α) (x : α) (l2 : List α),
      remove_at (l1 ++ x :: l2) l1.length = l1 ++ l2 := by
  intro l1 x l2
  induction l1 with
  | nil => rfl
  | cons a rest ih => simpa [remove_at] using ih

theorem countP_one_split {α : Type} (p : α → Bool) :
    ∀ l : List α, l.countP p = 1 →
      ∃ l1 x l2, l = l1 ++ x :: l2 ∧ p x = true ∧
        l1.all (fun a => !(p a)) = true ∧ l2.all (fun a => !(p a)) = true := by
  intro l
  induction l with
  | nil => intro h; simp [List.countP_nil] at h
  | cons a rest ih =>
    intro h
    rw [List.countP_cons] at h
    cases ha : p a with
    | true =>
      rw [ha] at h
      simp at h
      refine ⟨[], a, rest, by simp, ha, rfl, ?_⟩
      rw [List.all_eq_true]
      intro x hx
      simpa using h x hx
    | false =>
      rw [ha] at h
      simp at h
      obtain ⟨l1, x, l2, rfl, hx, hl1, hl2⟩ := ih h
      refine ⟨a :: l1, x, l2, rfl, hx, ?_, hl2⟩
      rw [List.all_cons, hl1, ha]
      rfl

/-! ### Helper lemmas about the coordinator fan-out -/

theorem fan_out_filterMap (q : EnrUpdate.InstanceInfo → Bool) :
    ∀ l, (EnrUpdate.fan_out q l).filterMap EnrUpdate.find_node_peer = l := by
  intro l
  induction l with
  | nil => rfl
  | cons p rest ih =>
    cases hq : q p <;>
      simp [EnrUpdate.fan_out, hq, EnrUpdate.find_node_peer, ih]

theorem fan_out_log_mem (q : EnrUpdate.InstanceInfo → Bool) :
    ∀ (l : List EnrUpdate.InstanceInfo) (p : EnrUpdate.InstanceInfo),
      p ∈ l → q p = false →
      EnrUpdate.Step.logFindNodeError p ∈ EnrUpdate.fan_out q l := by
  intro l
  induction l with
  | nil => intro p h; simp at h
  | cons a rest ih =>
    intro p hp hq
    rcases List.mem_cons.mp hp with rfl | hmem
    · simp [EnrUpdate.fan_out, hq]
    · have := ih p hmem hq
      simp [EnrUpdate.fan_out, List.mem_append]
      tauto

theorem fan_out_no_metric (q : EnrUpdate.InstanceInfo → Bool) :
    ∀ l, (EnrUpdate.fan_out q l).all
      (fun s => !(EnrUpdate.is_record_metric s)) = true := by
  intro l
  induction l with
  | nil => rfl
  | cons p rest ih =>
    cases hq : q p <;>
      simp [EnrUpdate.fan_out, hq, EnrUpdate.is_record_metric, ih] <;>
      simpa [EnrUpdate.is_record_metric] using ih

/-! ### Claimed properties -/

/-- C2: whenever the subscription stream yields at least
`test_instance_count` payloads that decode successfully, `publish_and_collect`
first publishes the encoded own record on the topic (the publish action heads
the action trace, before the subscription), and returns exactly the first
`test_instance_count` decoded records of the stream, in arrival order,
without filtering, deduplication or reordering; the returned list has exactly
`test_instance_count` elements. -/
theorem publish_and_collect_returns_first_count {E T : Type}
    (encode : T → String) (decode : String → Except E T)
    (test_instance_count : Nat) (info : T)
    (stream : List (Except E String)) (ts : List T)
    (h : decode_all decode (stream.take test_instance_count) = some ts)
    (hlen : test_instance_count ≤ stream.length) :
    publish_and_collect encode decode (.ok ()) test_instance_count info
        stream =
      ([PCAct.publish "publish_and_collect" (encode info),
        PCAct.subscribe "publish_and_collect"], .ok ts) ∧
    ts.length = test_instance_count := by
  constructor
  · simp only [publish_and_collect]
    rw [collect_loop_ok decode _ _ [] ts h hlen]
    simp
  · have hl := decode_all_length decode _ _ h
    rw [List.length_take] at hl
    omega

theorem publish_and_collect_returns_first_count_witness :
    decode_all (fun s => (Except.ok s : Except String String))
        (([Except.ok "a", Except.ok "b", Except.ok "c"]).take 2) =
      some ["a", "b"] ∧
    2 ≤ ([Except.ok "a", Except.ok "b", Except.ok "c"] :
      List (Except String String)).length ∧
    (publish_and_collect (fun _ => "r")
        (fun s => (Except.ok s : Except String String)) (.ok ()) 2 "me"
        [Except.ok "a", Except.ok "b", Except.ok "c"] =
      ([PCAct.publish "publish_and_collect" "r",
        PCAct.subscribe "publish_and_collect"], .ok ["a", "b"]) ∧
      (["a", "b"] : List String).length = 2) :=
  ⟨by decide, by decide,
    publish_and_collect_returns_first_count (fun _ => "r")
      (fun s => (Except.ok s : Except String String)) 2 "me"
      [Except.ok "a", Except.ok "b", Except.ok "c"] ["a", "b"]
      (by decide) (by decide)⟩

/-- C3: when the subscription stream closes (the finite stream ends) before
`test_instance_count` records have been collected, and no stream or decode
error occurred earlier, `publish_and_collect` hits the `unreachable!()` arm:
the call ends in the `panicked` outcome, a process-aborting fatal result, and
in particular never returns a partial collection. -/
theorem publish_and_collect_feed_closed_panics {E T : Type}
    (encode : T → String) (decode : String → Except E T)
    (test_instance_count : Nat) (info : T)
    (stream : List (Except E String)) (ts : List T)
    (h : decode_all decode stream = some ts)
    (hlen : stream.length < test_instance_count) :
    publish_and_collect encode decode (.ok ()) test_instance_count info
        stream =
      ([PCAct.publish "publish_and_collect" (encode info),
        PCAct.subscribe "publish_and_collect"], .panicked) := by
  simp only [publish_and_collect]
  rw [collect_loop_closed decode stream test_instance_count [] ts h hlen]

theorem publish_and_collect_feed_closed_panics_witness :
    decode_all (fun s => (Except.ok s : Except String String))
        [Except.ok "a"] = some ["a"] ∧
    ([Except.ok "a"] : List (Except String String)).length < 3 ∧
    publish_and_collect (fun _ => "r")
        (fun s => (Except.ok s : Except String String)) (.ok ()) 3 "me"
        [Except.ok "a"] =
      ([PCAct.publish "publish_and_collect" "r",
        PCAct.subscribe "publish_and_collect"], .panicked) :=
  ⟨by decide, by decide,
    publish_and_collect_feed_closed_panics (fun _ => "r")
      (fun s => (Except.ok s : Except String String)) 3 "me"
      [Except.ok "a"] ["a"] (by decide) (by decide)⟩

/-- C7: when the rendezvous succeeds and the own `seq` occurs exactly once in
the collected list, `collect_instance_info` returns the collected list with
the own record removed: one element fewer, no remaining record carrying the
own `seq`, and the rest of the list unchanged and in order (the list splits
as `l1 ++ x :: l2` with the result `l1 ++ l2`). -/
theorem collect_instance_info_removes_self {E : Type}
    (encode : InstanceInfo → String)
    (decode : String → Except E InstanceInfo)
    (test_instance_count : Nat) (own : InstanceInfo)
    (stream : List (Except E String)) (tr : List PCAct)
    (info : List InstanceInfo)
    (h : publish_and_collect encode decode (.ok ()) test_instance_count own
        stream = (tr, .ok info))
    (h1 : info.countP (fun i => i.seq == own.seq) = 1) :
    collect_instance_info encode decode (.ok ()) test_instance_count own
        stream = (tr, .ok (remove_own own info)) ∧
    (remove_own own info).length = info.length - 1 ∧
    (remove_own own info).all (fun i => !(i.seq == own.seq)) = true ∧
    ∃ l1 x l2, info = l1 ++ x :: l2 ∧ remove_own own info = l1 ++ l2 := by
  obtain ⟨l1, x, l2, hsplit, hx, hl1, hl2⟩ :=
    countP_one_split (fun i => i.seq == own.seq) info h1
  have hrm : remove_own own info = l1 ++ l2 := by
    rw [hsplit]
    simp only [remove_own]
    rw [position_clean_append _ l1 x l2 hl1 hx]
    exact remove_at_append l1 x l2
  refine ⟨?_, ?_, ?_, l1, x, l2, hsplit, hrm⟩
  · unfold collect_instance_info
    rw [h]
  · rw [hrm, hsplit]
    simp
  · rw [hrm, List.all_append, hl1, hl2]
    rfl

theorem collect_instance_info_removes_self_witness :
    publish_and_collect (fun _ => "r")
        (fun s => (if s == "2" then Except.ok ⟨2, ⟨none, none⟩, false⟩
          else Except.ok ⟨1, ⟨none, none⟩, true⟩ :
          Except String InstanceInfo)) (.ok ()) 2
        ⟨1, ⟨none, none⟩, true⟩ [Except.ok "2", Except.ok "1"] =
      ([PCAct.publish "publish_and_collect" "r",
        PCAct.subscribe "publish_and_collect"],
       .ok [⟨2, ⟨none, none⟩, false⟩, ⟨1, ⟨none, none⟩, true⟩]) ∧
    ([⟨2, ⟨none, none⟩, false⟩, ⟨1, ⟨none, none⟩, true⟩] :
        List InstanceInfo).countP (fun i => i.seq == 1) = 1 ∧
    (collect_instance_info (fun _ => "r")
        (fun s => (if s == "2" then Except.ok ⟨2, ⟨none, none⟩, false⟩
          else Except.ok ⟨1, ⟨none, none⟩, true⟩ :
          Except String InstanceInfo)) (.ok ()) 2
        ⟨1, ⟨none, none⟩, true⟩ [Except.ok "2", Except.ok "1"] =
      ([PCAct.publish "publish_and_collect" "r",
        PCAct.subscribe "publish_and_collect"],
       .ok (remove_own ⟨1, ⟨none, none⟩, true⟩
        [⟨2, ⟨none, none⟩, false⟩, ⟨1, ⟨none, none⟩, true⟩])) ∧
      (remove_own ⟨1, ⟨none, none⟩, true⟩
        [⟨2, ⟨none, none⟩, false⟩, ⟨1, ⟨none, none⟩, true⟩]).length =
        ([⟨2, ⟨none, none⟩, false⟩, ⟨1, ⟨none, none⟩, true⟩] :
          List InstanceInfo).length - 1 ∧
      (remove_own ⟨1, ⟨none, none⟩, true⟩
        [⟨2, ⟨none, none⟩, false⟩, ⟨1, ⟨none, none⟩, true⟩]).all
        (fun i => !(i.seq == 1)) = true ∧
      ∃ l1 x l2,
        ([⟨2, ⟨none, none⟩, false⟩, ⟨1, ⟨none, none⟩, true⟩] :
          List InstanceInfo) = l1 ++ x :: l2 ∧
        remove_own ⟨1, ⟨none, none⟩, true⟩
          [⟨2, ⟨none, none⟩, false⟩, ⟨1, ⟨none, none⟩, true⟩] = l1 ++ l2) :=
  ⟨by decide, by decide,
    collect_instance_info_removes_self (fun _ => "r")
      (fun s => (if s == "2" then Except.ok ⟨2, ⟨none, none⟩, false⟩
        else Except.ok ⟨1, ⟨none, none⟩, true⟩ : Except String InstanceInfo))
      2 ⟨1, ⟨none, none⟩, true⟩ [Except.ok "2", Except.ok "1"]
      [PCAct.publish "publish_and_collect" "r",
        PCAct.subscribe "publish_and_collect"]
      [⟨2, ⟨none, none⟩, false⟩, ⟨1, ⟨none, none⟩, true⟩]
      (by decide) (by decide)⟩

/-- C10: the removal inside `collect_instance_info` drops at most one
element, namely the first record whose `seq` equals the own `seq`: when the
collected list splits as a prefix `l1` with no matching record, a first match
`x`, and an arbitrary tail `l2`, exactly `x` is dropped and every later
occurrence in `l2` is kept; and a list with no matching record at all is
returned entirely unchanged. -/
theorem remove_own_first_match_only (own x : InstanceInfo)
    (l1 l2 : List InstanceInfo)
    (h1 : l1.all (fun i => !(i.seq == own.seq)) = true)
    (hx : (x.seq == own.seq) = true) :
    remove_own own (l1 ++ x :: l2) = l1 ++ l2 ∧ remove_own own l1 = l1 := by
  constructor
  · simp only [remove_own]
    rw [position_clean_append _ l1 x l2 h1 hx]
    exact remove_at_append l1 x l2
  · simp only [remove_own]
    rw [position_clean _ l1 h1]

theorem remove_own_first_match_only_witness :
    ([⟨2, ⟨none, none⟩, false⟩] : List InstanceInfo).all
        (fun i => !(i.seq == 1)) = true ∧
    (((⟨1, ⟨none, none⟩, true⟩ : InstanceInfo).seq == 1) = true) ∧
    (remove_own ⟨1, ⟨none, none⟩, true⟩
        ([⟨2, ⟨none, none⟩, false⟩] ++ ⟨1, ⟨none, none⟩, true⟩ ::
          [⟨1, ⟨none, none⟩, true⟩, ⟨3, ⟨none, none⟩, false⟩]) =
      [⟨2, ⟨none, none⟩, false⟩] ++
        [⟨1, ⟨none, none⟩, true⟩, ⟨3, ⟨none, none⟩, false⟩] ∧
    remove_own ⟨1, ⟨none, none⟩, true⟩ [⟨2, ⟨none, none⟩, false⟩] =
      [⟨2, ⟨none, none⟩, false⟩]) :=
  ⟨by decide, by decide,
    remove_own_first_match_only ⟨1, ⟨none, none⟩, true⟩
      ⟨1, ⟨none, none⟩, true⟩ [⟨2, ⟨none, none⟩, false⟩]
      [⟨1, ⟨none, none⟩, true⟩, ⟨3, ⟨none, none⟩, false⟩]
      (by decide) (by decide)⟩

/-- C1 counterexample: in a concrete coordinator execution (seq 1, one peer,
all queries succeeding), the rendezvous publish step occurs strictly before
the watcher-start step, so the claimed ordering (watcher start before the
publish step) is false: the first occurrence of the publish step (index 2)
precedes the first occurrence of the watcher start (index 3), not the other
way round. -/
theorem run_publish_precedes_watcher_cex :
    EnrUpdate.precedes_in
        (EnrUpdate.run 1 0 [⟨2, ⟨none, none⟩⟩] (fun _ => true) (some 7)
          0 3 2).1
        EnrUpdate.is_start_watcher EnrUpdate.is_publish_and_collect = false ∧
    EnrUpdate.precedes_in
        (EnrUpdate.run 1 0 [⟨2, ⟨none, none⟩⟩] (fun _ => true) (some 7)
          0 3 2).1
        EnrUpdate.is_publish_and_collect EnrUpdate.is_start_watcher = true :=
  ⟨by decide, by decide⟩

/-- C1 (amended): in every coordinator execution the watcher-start step
(trace index 3) comes strictly after the rendezvous publish step (trace index
2) and strictly before every directed FIND_NODE query: any trace position
holding a query is beyond index 3. -/
theorem run_watcher_before_queries (ip : Nat)
    (parts : List EnrUpdate.InstanceInfo)
    (q : EnrUpdate.InstanceInfo → Bool) (su : Option Nat) (t1 t2 : Int)
    (n j : Nat) (p : EnrUpdate.InstanceInfo)
    (h : (EnrUpdate.run 1 ip parts q su t1 t2 n).1[j]? =
      some (EnrUpdate.Step.findNode p)) :
    position EnrUpdate.is_publish_and_collect
        (EnrUpdate.run 1 ip parts q su t1 t2 n).1 = some 2 ∧
    position EnrUpdate.is_start_watcher
        (EnrUpdate.run 1 ip parts q su t1 t2 n).1 = some 3 ∧
    3 < j := by
  refine ⟨?_, ?_, ?_⟩
  · simp [EnrUpdate.run, position, EnrUpdate.is_publish_and_collect]
  · simp [EnrUpdate.run, position, EnrUpdate.is_publish_and_collect,
      EnrUpdate.is_start_watcher]
  · by_contra hj
    push_neg at hj
    interval_cases j <;> simp [EnrUpdate.run] at h

theorem run_watcher_before_queries_witness :
    (EnrUpdate.run 1 0 [⟨2, ⟨none, none⟩⟩] (fun _ => true) (some 7)
        0 3 2).1[4]? =
      some (EnrUpdate.Step.findNode ⟨2, ⟨none, none⟩⟩) ∧
    (position EnrUpdate.is_publish_and_collect
        (EnrUpdate.run 1 0 [⟨2, ⟨none, none⟩⟩] (fun _ => true) (some 7)
          0 3 2).1 = some 2 ∧
      position EnrUpdate.is_start_watcher
        (EnrUpdate.run 1 0 [⟨2, ⟨none, none⟩⟩] (fun _ => true) (some 7)
          0 3 2).1 = some 3 ∧
      3 < 4) :=
  ⟨by decide,
    run_watcher_before_queries 0 [⟨2, ⟨none, none⟩⟩] (fun _ => true) (some 7)
      0 3 2 4 ⟨2, ⟨none, none⟩⟩ (by decide)⟩

theorem fan_out_mem_not_metric (q : EnrUpdate.InstanceInfo → Bool) :
    ∀ (l : List EnrUpdate.InstanceInfo) (x : EnrUpdate.Step),
      x ∈ EnrUpdate.fan_out q l → EnrUpdate.is_record_metric x = false := by
  intro l
  induction l with
  | nil => intro x h; simp [EnrUpdate.fan_out] at h
  | cons a rest ih =>
    intro x hx
    simp only [EnrUpdate.fan_out, List.mem_cons, List.mem_append] at hx
    rcases hx with rfl | hx | hx
    · rfl
    · cases hq : q a <;> rw [hq] at hx <;> simp at hx
      rw [hx]
      rfl
    · exact ih x hx

/-- C4: in every coordinator execution in which the event feed closes without
a SocketUpdated event (the oneshot receiver fails, modeled by
`socket_update = none`), the run still records the error-level diagnostic for
the failed receive, still passes the final COMPLETED barrier, still reaches
the success report, records no headline metric anywhere in the trace, and
returns success. -/
theorem run_feed_closed_still_succeeds (ip : Nat)
    (parts : List EnrUpdate.InstanceInfo)
    (q : EnrUpdate.InstanceInfo → Bool) (t1 t2 : Int) (n : Nat) :
    EnrUpdate.Step.logRecvError ∈
      (EnrUpdate.run 1 ip parts q none t1 t2 n).1 ∧
    EnrUpdate.Step.signalAndWait EnrUpdate.STATE_COMPLETED n ∈
      (EnrUpdate.run 1 ip parts q none t1 t2 n).1 ∧
    EnrUpdate.Step.recordSuccess ∈
      (EnrUpdate.run 1 ip parts q none t1 t2 n).1 ∧
    (EnrUpdate.run 1 ip parts q none t1 t2 n).1.all
      (fun s => !(EnrUpdate.is_record_metric s)) = true ∧
    (EnrUpdate.run 1 ip parts q none t1 t2 n).2 = Except.ok () := by
  refine ⟨?_, ?_, ?_, ?_, rfl⟩
  · simp [EnrUpdate.run, List.mem_append]
  · simp [EnrUpdate.run, List.mem_append]
  · simp [EnrUpdate.run, List.mem_append]
  · simp only [EnrUpdate.run, List.all_append, List.all_cons,
      Bool.and_eq_true, List.all_eq_true]
    refine ⟨rfl, rfl, rfl, ?_⟩
    simp [EnrUpdate.is_record_metric]
    intro x hx
    exact fan_out_mem_not_metric q _ x hx

/-- C5 counterexample: with all wall-clock readings given in seconds from
the coordinator process start, take an execution in which the discv5 server
finishes starting 100 seconds after process start (`started_up_at = 100`,
line 60 of the source runs late, e.g. because the network-configuration
barrier is slow) and the watcher result arrives 130 seconds after process
start. The address-changed event thus occurs T = 130 seconds after process
start, but the recorded headline metric is 30, not 130: the claim that the
metric equals the elapsed time since process start is false. -/
theorem run_metric_not_since_process_start_cex :
    (EnrUpdate.run 1 0 [] (fun _ => true) (some 7) 100 130 1).1.contains
        (EnrUpdate.Step.recordMetric 30) = true ∧
    (EnrUpdate.run 1 0 [] (fun _ => true) (some 7) 100 130 1).1.contains
        (EnrUpdate.Step.recordMetric 130) = false :=
  ⟨by decide, by decide⟩

/-- C5 (amended): when the coordinator receives the watcher result (an
observed address), the headline metric it records equals the elapsed
wall-clock seconds from `started_up_at` — the reading taken right after the
discv5 server start (line 60), after network configuration and server
construction — to the reading taken when the result is handled (line 137),
not the elapsed time since process start. -/
theorem run_metric_since_server_start (ip : Nat)
    (parts : List EnrUpdate.InstanceInfo)
    (q : EnrUpdate.InstanceInfo → Bool) (addr : Nat) (t1 t2 : Int)
    (n : Nat) :
    EnrUpdate.Step.recordMetric (t2 - t1) ∈
      (EnrUpdate.run 1 ip parts q (some addr) t1 t2 n).1 := by
  simp [EnrUpdate.run, List.mem_append]

/-- C6: in every coordinator execution the directed queries of the fan-out,
read off the trace in order, are exactly one per collected peer whose `seq`
differs from the coordinator seq 1 (no peer skipped, none queried twice);
whenever the query oracle fails a fanned-out peer, the failure is logged with
an error-level message; and the CONNECTIONS_ESTABLISHED barrier step is in
the trace regardless, after the fan-out. -/
theorem run_fanout_best_effort (ip : Nat)
    (parts : List EnrUpdate.InstanceInfo)
    (q : EnrUpdate.InstanceInfo → Bool) (su : Option Nat) (t1 t2 : Int)
    (n : Nat) (p : EnrUpdate.InstanceInfo) (hp : p ∈ parts)
    (hne : (p.seq == 1) = false) (hq : q p = false) :
    (EnrUpdate.run 1 ip parts q su t1 t2 n).1.filterMap
        EnrUpdate.find_node_peer =
      parts.filter (fun i => !(i.seq == 1)) ∧
    EnrUpdate.Step.logFindNodeError p ∈
      (EnrUpdate.run 1 ip parts q su t1 t2 n).1 ∧
    EnrUpdate.Step.signalAndWait
        EnrUpdate.STATE_COMPLETED_ESTABLISH_CONNECTIONS n ∈
      (EnrUpdate.run 1 ip parts q su t1 t2 n).1 := by
  refine ⟨?_, ?_, ?_⟩
  · cases su <;>
      simp [EnrUpdate.run, List.filterMap_append, EnrUpdate.find_node_peer,
        fan_out_filterMap]
  · have hmem : p ∈ parts.filter (fun i => !(i.seq == 1)) :=
      List.mem_filter.mpr ⟨hp, by simp [hne]⟩
    have hlog := fan_out_log_mem q _ p hmem hq
    simp [EnrUpdate.run, List.mem_append]
    tauto
  · simp [EnrUpdate.run, List.mem_append]

theorem run_fanout_best_effort_witness :
    (⟨2, ⟨none, none⟩⟩ : EnrUpdate.InstanceInfo) ∈
      ([⟨2, ⟨none, none⟩⟩, ⟨3, ⟨none, none⟩⟩] :
        List EnrUpdate.InstanceInfo) ∧
    (((⟨2, ⟨none, none⟩⟩ : EnrUpdate.InstanceInfo).seq == 1) = false) ∧
    ((fun (_ : EnrUpdate.InstanceInfo) => false) ⟨2, ⟨none, none⟩⟩ =
      false) ∧
    ((EnrUpdate.run 1 0 [⟨2, ⟨none, none⟩⟩, ⟨3, ⟨none, none⟩⟩]
          (fun _ => false) (some 7) 0 3 3).1.filterMap
        EnrUpdate.find_node_peer =
      ([⟨2, ⟨none, none⟩⟩, ⟨3, ⟨none, none⟩⟩] :
        List EnrUpdate.InstanceInfo).filter (fun i => !(i.seq == 1)) ∧
    EnrUpdate.Step.logFindNodeError ⟨2, ⟨none, none⟩⟩ ∈
      (EnrUpdate.run 1 0 [⟨2, ⟨none, none⟩⟩, ⟨3, ⟨none, none⟩⟩]
        (fun _ => false) (some 7) 0 3 3).1 ∧
    EnrUpdate.Step.signalAndWait
        EnrUpdate.STATE_COMPLETED_ESTABLISH_CONNECTIONS 3 ∈
      (EnrUpdate.run 1 0 [⟨2, ⟨none, none⟩⟩, ⟨3, ⟨none, none⟩⟩]
        (fun _ => false) (some 7) 0 3 3).1) :=
  ⟨by decide, by decide, by decide,
    run_fanout_best_effort 0 [⟨2, ⟨none, none⟩⟩, ⟨3, ⟨none, none⟩⟩]
      (fun _ => false) (some 7) 0 3 3 ⟨2, ⟨none, none⟩⟩
      (by decide) (by decide) (by decide)⟩

/-- C8: the bootstrap (coordinator) role is tied to sequence number 1 and
nothing else: `InstanceInfo.new` sets `is_bootstrap_node` to the value of
`seq == 1`, the run trace contains the watcher-start step exactly when the
global sequence number is 1, and a process whose sequence number is not 1
issues no directed FIND_NODE query at all. -/
theorem bootstrap_role_iff_seq_one (seq : Nat) (enr : Enr) (ip : Nat)
    (parts : List EnrUpdate.InstanceInfo)
    (q : EnrUpdate.InstanceInfo → Bool) (su : Option Nat) (t1 t2 : Int)
    (n : Nat) :
    (InstanceInfo.new seq enr).is_bootstrap_node = (seq == 1) ∧
    (EnrUpdate.run seq ip parts q su t1 t2 n).1.any
        EnrUpdate.is_start_watcher = (seq == 1) ∧
    (!(seq == 1) &&
      (EnrUpdate.run seq ip parts q su t1 t2 n).1.any
        EnrUpdate.is_find_node) = false := by
  refine ⟨rfl, ?_, ?_⟩ <;>
    cases h : (seq == 1) <;>
    cases su <;>
    simp [EnrUpdate.run, h, List.any_append, EnrUpdate.is_start_watcher,
      EnrUpdate.is_find_node]

/-- C9: identity-record construction is role-dependent: a process whose
global sequence number is not 1 builds its record with its data-network IP
address and the fixed discovery UDP port 9000, while the coordinator (seq 1)
builds its record with no address fields at all (to be learned later). -/
theorem enr_construction_role (global_seq data_network_ip : Nat)
    (h : global_seq ≠ 1) :
    EnrUpdate.construct_local_enr global_seq data_network_ip =
      { ip4 := some data_network_ip, udp4 := some 9000 } ∧
    EnrUpdate.construct_local_enr 1 data_network_ip =
      { ip4 := none, udp4 := none } := by
  constructor
  · simp [EnrUpdate.construct_local_enr, h]
  · rfl

theorem enr_construction_role_witness :
    (2 : Nat) ≠ 1 ∧
    (EnrUpdate.construct_local_enr 2 5 =
      { ip4 := some 5, udp4 := some 9000 } ∧
    EnrUpdate.construct_local_enr 1 5 = { ip4 := none, udp4 := none }) :=
  ⟨by decide, enr_construction_role 2 5 (by decide)⟩
